import Mathlib

/-!
Shallow embedding of `plot_intensity.py`, a two-column plotting script.

Files are modelled as lists of lines (`List String`); the IO boundary
(`Path.read_text().splitlines()`, `plt.plot`, `sys.exit`) is modelled by
passing lines explicitly, recording the numeric series handed to the
plotting calls, and returning exit codes as naturals.  Floating-point
values are modelled as exact rationals; non-finite values (nan/inf) are
recognised by the float-token recogniser but carry no rational value, and
none of the verified properties involve them.
-/

/-- Decidable equality for Except, used to evaluate the fallible model
functions on concrete inputs. -/
instance instDecEqExcept {ε α : Type} [DecidableEq ε] [DecidableEq α] :
    DecidableEq (Except ε α) := fun a b =>
  match a, b with
  | .error e, .error f =>
    if h : e = f then isTrue (h ▸ rfl) else isFalse fun hh => h (Except.error.inj hh)
  | .ok x, .ok y =>
    if h : x = y then isTrue (h ▸ rfl) else isFalse fun hh => h (Except.ok.inj hh)
  | .error _, .ok _ => isFalse fun hh => Except.noConfusion hh
  | .ok _, .error _ => isFalse fun hh => Except.noConfusion hh

/-- Characters treated as whitespace by Python's str.strip and by the
regular expression class used in the script (space, tab, newline,
carriage return, vertical tab, form feed). -/
def wsChar (c : Char) : Bool :=
  c = ' ' || c = '\t' || c = '\n' || c = '\r' || c = '\x0b' || c = '\x0c'

/-- Models Python str.strip(): drop leading and trailing whitespace. -/
def pyStrip (s : String) : String :=
  String.mk (((s.toList.dropWhile wsChar).reverse.dropWhile wsChar).reverse)

/-- Models Python str.startswith(pat). -/
def pyStartswith (s pat : String) : Bool :=
  pat.toList.isPrefixOf s.toList

/-- Models Python s[n:] (drop the first n characters). -/
def strDropN (s : String) (n : Nat) : String :=
  String.mk (s.toList.drop n)

/-- Auxiliary splitter: splits a character list at maximal runs of
delimiter characters, keeping the (possibly empty) chunks at both ends,
exactly as re.split with a one-or-more-delimiters pattern does.
prevDelim records whether the previous character was a delimiter. -/
def splitAux (delim : Char → Bool) (prevDelim : Bool) (cur : List Char) :
    List Char → List (List Char)
  | [] => [cur.reverse]
  | c :: rest =>
    if delim c then
      if prevDelim then splitAux delim true [] rest
      else cur.reverse :: splitAux delim true [] rest
    else splitAux delim false (c :: cur) rest

/-- Delimiters of the script's token splitter: comma or whitespace. -/
def reDelim (c : Char) : Bool := c = ',' || wsChar c

/-- Models re.split on a run of commas/whitespace applied to a string. -/
def reSplit (s : String) : List String :=
  (splitAux reDelim false [] s.toList).map (fun cs => String.mk cs)

/-- Models Python str.split() with no argument: split on whitespace runs
and discard empty tokens (the tokenisation numpy loadtxt uses with the
default delimiter). -/
def wsSplit (s : String) : List String :=
  ((splitAux wsChar false [] s.toList).map (fun cs => String.mk cs)).filter
    (fun t => t ≠ "")

/-- Numeric value of a list of decimal digit characters. -/
def digitsVal (cs : List Char) : Nat :=
  cs.foldl (fun a c => a * 10 + (c.toNat - 48)) 0

/-- Takes a maximal Python digit run, allowing single underscores strictly
between digits (as Python numeric literals do), returning the digits with
underscores removed together with the unconsumed rest. -/
def spanDigitsU : List Char → List Char × List Char
  | [] => ([], [])
  | [c] => if c.isDigit then ([c], []) else ([], [c])
  | c :: c2 :: rest =>
    if c.isDigit then
      if c2 = '_' then
        match rest with
        | d :: _ =>
          if d.isDigit then
            let p := spanDigitsU rest
            (c :: p.1, p.2)
          else ([c], c2 :: rest)
        | [] => ([c], c2 :: rest)
      else
        let p := spanDigitsU (c2 :: rest)
        (c :: p.1, p.2)
    else ([], c :: c2 :: rest)

/-- Power of ten as a rational, by structural recursion so that concrete
values reduce in the kernel. -/
def pow10 : Nat → ℚ
  | 0 => 1
  | n + 1 => 10 * pow10 n

/-- Ten raised to an integer exponent. -/
def expPow : ℤ → ℚ
  | .ofNat n => pow10 n
  | .negSucc n => 1 / pow10 (n + 1)

/-- Models Python float() on finite decimal tokens: optional sign, integer
part, optional fractional part, optional exponent.  Non-finite tokens
(inf/nan) are handled separately by isInfNanTok. -/
def pyFloat? (s : String) : Option ℚ :=
  let cs := s.toList
  let sp : ℚ × List Char :=
    match cs with
    | '+' :: r => (1, r)
    | '-' :: r => (-1, r)
    | r => (1, r)
  let ipr := spanDigitsU sp.2
  let fpr : Option (List Char) × List Char :=
    match ipr.2 with
    | '.' :: r =>
      let q := spanDigitsU r
      (some q.1, q.2)
    | r => (none, r)
  let fp := fpr.1.getD []
  if ipr.1 = [] ∧ fp = [] then none
  else
    let mant : ℚ := sp.1 * ((digitsVal ipr.1 : ℚ) + (digitsVal fp : ℚ) / pow10 fp.length)
    match fpr.2 with
    | [] => some mant
    | c :: r3 =>
      if c = 'e' ∨ c = 'E' then
        let esp : ℤ × List Char :=
          match r3 with
          | '+' :: r => (1, r)
          | '-' :: r => (-1, r)
          | r => (1, r)
        let edr := spanDigitsU esp.2
        if edr.1 = [] ∨ edr.2 ≠ [] then none
        else some (mant * expPow (esp.1 * (digitsVal edr.1 : ℤ)))
      else none

/-- Lower-cases an ASCII letter. -/
def lowerAscii (c : Char) : Char :=
  if 'A' ≤ c ∧ c ≤ 'Z' then Char.ofNat (c.toNat + 32) else c

/-- Recognises the non-finite tokens Python float() accepts:
optionally signed inf, infinity or nan, case-insensitively. -/
def isInfNanTok (s : String) : Bool :=
  let cs := s.toList.map lowerAscii
  let cs2 : List Char :=
    match cs with
    | '+' :: r => r
    | '-' :: r => r
    | r => r
  cs2 = ['i', 'n', 'f'] || cs2 = ['i', 'n', 'f', 'i', 'n', 'i', 't', 'y'] ||
    cs2 = ['n', 'a', 'n']

/-- A token on which Python float() succeeds. -/
def isPyFloat (s : String) : Bool :=
  (pyFloat? s).isSome || isInfNanTok s

/-- Loop body of find_labels_and_data_start: walks the lines carrying the
current label text and index; a line starting with the #L marker updates
the label, and the first line all of whose comma/whitespace tokens parse
as floats is the data start. -/
def flGo (lab : String) (i : Nat) : List String → Except String (String × Nat)
  | [] => .error "No numeric data found in file."
  | line :: rest =>
    let stripped := pyStrip line
    let lab2 := if pyStartswith stripped "#L" = true then pyStrip (strDropN stripped 2) else lab
    let parts := reSplit stripped
    if parts = [] ∨ parts = [""] then flGo lab2 (i + 1) rest
    else if parts.all isPyFloat = true then .ok (lab2, i)
    else flGo lab2 (i + 1) rest

/-- Models find_labels_and_data_start(lines): returns the label line text
(with the #L marker removed) and the index of the first numeric line, or
the no-numeric-data error. -/
def find_labels_and_data_start (lines : List String) : Except String (String × Nat) :=
  flGo "" 0 lines

/-- Truncates a line at the first '#', as numpy loadtxt comment handling does. -/
def truncHash (s : String) : String :=
  String.mk (s.toList.takeWhile (fun c => c ≠ '#'))

/-- Parses every token of a row as a float; none if any token fails. -/
def parseToks : List String → Option (List ℚ)
  | [] => some []
  | t :: rest =>
    match pyFloat? t, parseToks rest with
    | some v, some vs => some (v :: vs)
    | _, _ => none

/-- Row collection of numpy loadtxt with the default (whitespace)
delimiter: comments stripped, blank lines skipped, each remaining line
tokenised on whitespace and converted to floats. -/
def loadRows : List String → Except String (List (List ℚ))
  | [] => .ok []
  | line :: rest =>
    let toks := wsSplit (truncHash line)
    if toks = [] then loadRows rest
    else
      match parseToks toks with
      | none => .error "could not convert string to float"
      | some r =>
        match loadRows rest with
        | .error e => .error e
        | .ok rs => .ok (r :: rs)

/-- Models np.loadtxt on a list of lines: collects the numeric rows and
requires them all to have the same number of columns. -/
def loadtxt (lines : List String) : Except String (List (List ℚ)) :=
  match loadRows lines with
  | .error e => .error e
  | .ok rows =>
    match rows with
    | [] => .ok []
    | r :: rest =>
      if rest.all (fun row => row.length == r.length) then .ok (r :: rest)
      else .error "inconsistent number of columns"

/-- Models load_data on the lines of a file: locate the data start and
label line, split the labels, load the numeric block, reproduce numpy's
dimension squeezing (a single row or a single column gives a 1-D array,
a single value a 0-D array whose shape[1] access raises an IndexError),
and return the first two columns with the axis labels. -/
def load_data (lines : List String) :
    Except String (List ℚ × List ℚ × String × String) :=
  match find_labels_and_data_start lines with
  | .error e => .error e
  | .ok (label_line, start_idx) =>
    let labels := reSplit label_line
    let xlabel : String :=
      match labels with
      | l :: _ => l
      | [] => "X"
    let ylabel : String :=
      match labels with
      | _ :: l :: _ => l
      | _ => "Y"
    match loadtxt (List.drop start_idx lines) with
    | .error e => .error ("error reading numeric data: " ++ e)
    | .ok rows =>
      match rows with
      | [] => .error "file must have at least two numeric columns."
      | [r] =>
        if r.length = 1 then .error "tuple index out of range"
        else .error "file must have at least two numeric columns."
      | r :: _ :: _ =>
        if r.length < 2 then .error "file must have at least two numeric columns."
        else .ok (rows.map (fun row => row.headD 0), rows.map (fun row => row.getD 1 0),
          xlabel, ylabel)

/-- Maximum of a list of rationals (np.nanmax on nan-free data); the
series handed to it by the script are never empty. -/
def listMax : List ℚ → ℚ
  | [] => 0
  | x :: r => r.foldl max x

/-- Minimum of a list of rationals (np.nanmin on nan-free data). -/
def listMin : List ℚ → ℚ
  | [] => 0
  | x :: r => r.foldl min x

/-- Does pat occur as a contiguous run inside the character list? -/
def containsSubAux (pat : List Char) : List Char → Bool
  | [] => pat.isPrefixOf []
  | c :: rest => pat.isPrefixOf (c :: rest) || containsSubAux pat rest

/-- Models the Python membership test pat in s on strings. -/
def containsSub (s pat : String) : Bool :=
  containsSubAux pat.toList s.toList

/-- One dataset entry of plot_waterfall: (filename, x, y). -/
abbrev WSeries := String × List ℚ × List ℚ

/-- The y values plot_waterfall actually uses for a dataset: files whose
name contains ".dofr" have y multiplied by 1/8 before plotting. -/
def scaledY (d : WSeries) : List ℚ :=
  if containsSub d.1 ".dofr" = true then d.2.2.map (fun v => v * 1 / 8) else d.2.2

/-- The value range np.nanmax(y) - np.nanmin(y) of the (possibly scaled)
y values of a dataset. -/
def seriesRange (d : WSeries) : ℚ :=
  listMax (scaledY d) - listMin (scaledY d)

/-- Loop of plot_waterfall: plots each dataset at the running offset and
then advances the offset by the dataset's value range times the scale
factor.  Returns the (x, y + offset) pairs handed to plt.plot, in order. -/
def plot_waterfall_go (sf : ℚ) (offset : ℚ) : List WSeries → List (List ℚ × List ℚ)
  | [] => []
  | d :: rest =>
    (d.2.1, (scaledY d).map (fun v => v + offset)) ::
      plot_waterfall_go sf (offset + seriesRange d * sf) rest

/-- The cumulative waterfall offset contributed by a list of datasets. -/
def cumOffset (sf : ℚ) (l : List WSeries) : ℚ :=
  (l.map (fun d => seriesRange d * sf)).sum

/-- Models np.allclose on two equal-length float vectors with numpy's
default tolerances rtol = 1e-5 and atol = 1e-8.  The script only reaches
this comparison on the x columns of two successfully loaded files, which
both have at least two entries; unequal lengths make np.allclose raise,
which the exit-code model accounts for separately. -/
def np_allclose (a b : List ℚ) : Bool :=
  (a.length == b.length) &&
    (List.zip a b).all (fun p => decide (|p.1 - p.2| ≤ 1 / 100000000 + |p.2| / 100000))

/-- Models np.interp at a single query point over the pairs
(xp, fp): constant extrapolation outside [xp.head, xp.last], linear
interpolation inside, assuming xp increasing as np.interp does. -/
def np_interp_one (t : ℚ) : List (ℚ × ℚ) → ℚ
  | [] => 0
  | [(_, y0)] => y0
  | (x0, y0) :: (x1, y1) :: rest =>
    if t ≤ x0 then y0
    else if t ≤ x1 then y0 + (y1 - y0) * (t - x0) / (x1 - x0)
    else np_interp_one t ((x1, y1) :: rest)

/-- Models np.interp(ts, xp, fp), vectorised over the query points. -/
def np_interp (ts xp fp : List ℚ) : List ℚ :=
  ts.map (fun t => np_interp_one t (xp.zip fp))

/-- The y values plot_difference plots: y2 is resampled onto x1 by
np.interp exactly when np.allclose(x1, x2) is false, and the result is
y1 minus that series. -/
def y_diff (x1 y1 x2 y2 : List ℚ) : List ℚ :=
  let y2i := if np_allclose x1 x2 = false then np_interp x1 x2 y2 else y2
  List.zipWith (fun a b => a - b) y1 y2i

/-- The file system seen by the script: an association of file names to
their lines.  A missing name models Path.exists() being false. -/
abbrev FS := List (String × List String)

/-- Models Path.exists() plus read_text().splitlines(). -/
def fsLookup (fs : FS) (name : String) : Option (List String) :=
  fs.lookup name

/-- Loop of plot_multiple: a missing file prints a not-found message and
is skipped, a file load_data rejects prints a reading error and is
skipped, and every successfully loaded file is plotted.  Returns the
plotted (name, x, y) triples in argument order and the printed messages. -/
def plot_multiple_run (fs : FS) : List String → List WSeries × List String
  | [] => ([], [])
  | f :: rest =>
    let pr := plot_multiple_run fs rest
    match fsLookup fs f with
    | none => (pr.1, ("Error: file not found -> " ++ f) :: pr.2)
    | some ls =>
      match load_data ls with
      | .error e => (pr.1, ("Error reading " ++ f ++ ": " ++ e) :: pr.2)
      | .ok (x, y, _, _) => ((f, x, y) :: pr.1, pr.2)

/-- Collection loop of plot_waterfall, which builds data_list with the
same skip-and-warn behaviour as plot_multiple before plotting. -/
def plot_waterfall_datalist (fs : FS) : List String → List WSeries × List String
  | [] => ([], [])
  | f :: rest =>
    let pr := plot_waterfall_datalist fs rest
    match fsLookup fs f with
    | none => (pr.1, ("Error: file not found -> " ++ f) :: pr.2)
    | some ls =>
      match load_data ls with
      | .error e => (pr.1, ("Error reading " ++ f ++ ": " ++ e) :: pr.2)
      | .ok (x, y, _, _) => ((f, x, y) :: pr.1, pr.2)

/-- The spec's description of multi-file behaviour, stated independently
of the loop: exactly the files that exist and load successfully are kept,
in argument order. -/
def specValidSeries (fs : FS) (files : List String) : List WSeries :=
  files.filterMap (fun f =>
    match fsLookup fs f with
    | none => none
    | some ls =>
      match load_data ls with
      | .error _ => none
      | .ok (x, y, _, _) => some (f, x, y))

/-- Exit code of plot_difference: 1 when either file is missing
(sys.exit(1)) or when either load_data raises (an uncaught exception ends
the interpreter with status 1), and also when the two x grids have
different lengths, in which case np.allclose raises; 0 otherwise. -/
def plot_difference_exit (fs : FS) (f1 f2 : String) : Nat :=
  match fsLookup fs f1, fsLookup fs f2 with
  | some l1, some l2 =>
    match load_data l1 with
    | .error _ => 1
    | .ok (x1, _, _, _) =>
      match load_data l2 with
      | .error _ => 1
      | .ok (x2, _, _, _) => if x1.length = x2.length then 0 else 1
  | _, _ => 1

/-- Exit code of main: 1 on an empty argument list, on a --diff call
without exactly two file names, on a --waterfall call without files, and
on whatever plot_difference yields; plot_multiple and plot_waterfall
catch every per-file failure and fall through to exit code 0. -/
def mainExit (fs : FS) (args : List String) : Nat :=
  match args with
  | [] => 1
  | a :: rest =>
    if a = "--diff" then
      match rest with
      | [f1, f2] => plot_difference_exit fs f1 f2
      | _ => 1
    else if a = "--waterfall" then
      match rest with
      | [] => 1
      | _ :: _ => 0
    else 0

/-- Claim C1: for a source file whose content is the three lines
'#L time,signal', '1 2', '2 3', loading the file yields x = [1, 2],
y = [2, 3], xlabel = "time", ylabel = "signal". -/
theorem load_data_header_example :
    load_data ["#L time,signal", "1 2", "2 3"] =
      .ok ([1, 2], [2, 3], "time", "signal") := by
  with_unfolding_all decide

/-- Claim C4 (code bug evidence): for a file with no label-marker line the
x label is the empty string, not "X": re.split of the empty label line
yields [''], so the len >= 1 test always succeeds and the "X" default is
dead code.  The y label does default to "Y". -/
theorem load_data_missing_label_xlabel_empty :
    load_data ["1 2", "2 3"] = .ok ([1, 2], [2, 3], "", "Y") := by
  with_unfolding_all decide

/-- Claim C7 (counterexample): a numeric block consisting of the single
one-column row "1" is squeezed by np.loadtxt to a zero-dimensional array,
so load_data raises an IndexError from data.shape[1] instead of the
"must have at least two numeric columns" ValueError. -/
theorem one_column_single_row_counterexample :
    load_data ["1"] = .error "tuple index out of range" ∧
      load_data ["1"] ≠ .error "file must have at least two numeric columns." := by
  with_unfolding_all decide

/-- Claim C3 (counterexample): with a first file named "a.dofr" holding
y values [0, 8] and scale factor 1/10, the code scales the first series
to [0, 1] before taking its range, so the second series is offset by
1/10, not by (max y1 - min y1) * (1/10) = 8/10 as the claim states. -/
theorem waterfall_offset_counterexample :
    (plot_waterfall_go (1 / 10) 0
        [("a.dofr", [0, 1], [0, 8]), ("b.txt", [0, 1], [0, 1])]).getD 1 ([], [])
      = ([0, 1], [1 / 10, 11 / 10]) ∧
    (([0, 1], [1 / 10, 11 / 10]) : List ℚ × List ℚ) ≠ ([0, 1], [8 / 10, 18 / 10]) := by
  with_unfolding_all decide

/-- Claim C2 (counterexample): the grids [0, 1] and [0, 1 + 1e-9] differ,
yet np.allclose accepts them with its default tolerances, so the code
subtracts y2 directly instead of the linear interpolation of y2 onto x1
that the claim prescribes for differing grids. -/
theorem diff_interp_counterexample :
    np_allclose [0, 1] [0, 1 + 1 / 1000000000] = true ∧
    ([0, 1] : List ℚ) ≠ [0, 1 + 1 / 1000000000] ∧
    y_diff [0, 1] [0, 0] [0, 1 + 1 / 1000000000] [0, 1]
      ≠ List.zipWith (fun a b => a - b) [0, 0]
          (np_interp [0, 1] [0, 1 + 1 / 1000000000] [0, 1]) := by
  with_unfolding_all decide

/-- Claim C5 (counterexample): in single-file mode a missing file is only
warned about inside plot_multiple, so the process exits with code 0, not
1 as the claim states. -/
theorem mainExit_single_missing_counterexample :
    mainExit [] ["absent.txt"] = 0 ∧ mainExit [] ["absent.txt"] ≠ 1 := by
  with_unfolding_all decide

/-- Helper for claim C6: the scan loop reports the no-numeric-data error
from any starting label and index when no line tokenises entirely into
floats. -/
theorem flGo_no_numeric (lines : List String) :
    ∀ lab i, (∀ l ∈ lines, (reSplit (pyStrip l)).all isPyFloat = false) →
      flGo lab i lines = .error "No numeric data found in file." := by
  induction lines with
  | nil => intro lab i _; rfl
  | cons line rest ih =>
    intro lab i h
    have hl := h line (List.mem_cons_self line rest)
    have hr : ∀ l ∈ rest, (reSplit (pyStrip l)).all isPyFloat = false :=
      fun l hm => h l (List.mem_cons_of_mem line hm)
    simp only [flGo]
    split_ifs <;> first
      | exact ih _ _ hr
      | simp_all

/-- Claim C6: for every list of input lines in which no line's
whitespace/comma-delimited tokens all parse as floating-point numbers,
the parser fails with the no-numeric-data error. -/
theorem no_numeric_data (lines : List String)
    (h : ∀ l ∈ lines, (reSplit (pyStrip l)).all isPyFloat = false) :
    find_labels_and_data_start lines = .error "No numeric data found in file." :=
  flGo_no_numeric lines "" 0 h

/-- Witness for claim C6 on a concrete file with a comment line, a word
line and a blank line. -/
theorem no_numeric_data_witness :
    find_labels_and_data_start ["# header", "alpha beta", ""] =
      .error "No numeric data found in file." :=
  no_numeric_data ["# header", "alpha beta", ""] (by with_unfolding_all decide)

/-- Claim C9: for every file whose data block is exactly one numeric row,
even one with two or more numeric columns, load_data fails with the
"must have at least two numeric columns" error, because np.loadtxt
returns a one-dimensional array for a single row. -/
theorem single_row_error (lines : List String) (lab : String) (i : Nat) (r : List ℚ)
    (h1 : find_labels_and_data_start lines = .ok (lab, i))
    (h2 : loadtxt (List.drop i lines) = .ok [r])
    (h3 : 2 ≤ r.length) :
    load_data lines = .error "file must have at least two numeric columns." := by
  have hn : r.length ≠ 1 := by omega
  simp only [load_data, h1, h2, if_neg hn]

/-- Witness for claim C9: the one-line file "1 2". -/
theorem single_row_error_witness :
    load_data ["1 2"] = .error "file must have at least two numeric columns." :=
  single_row_error ["1 2"] "" 0 [1, 2] (by with_unfolding_all decide)
    (by with_unfolding_all decide) (by decide)

/-- Claim C7 (amended): a numeric block of one-column rows makes load_data
fail with the "must have at least two numeric columns" error whenever the
block has at least two rows; the remaining single-value block instead
raises an IndexError, per the counterexample. -/
theorem one_column_error (lines : List String) (lab : String) (i : Nat)
    (rows : List (List ℚ))
    (h1 : find_labels_and_data_start lines = .ok (lab, i))
    (h2 : loadtxt (List.drop i lines) = .ok rows)
    (h3 : ∀ r ∈ rows, r.length = 1)
    (h4 : 2 ≤ rows.length) :
    load_data lines = .error "file must have at least two numeric columns." := by
  match rows, h4 with
  | r1 :: r2 :: rest, _ =>
    have hr1 : r1.length = 1 := h3 r1 (List.mem_cons_self r1 _)
    have hlt : r1.length < 2 := by omega
    simp only [load_data, h1, h2, if_pos hlt]

/-- Witness for claim C7's amended statement: the two-line file "3", "4". -/
theorem one_column_error_witness :
    load_data ["3", "4"] = .error "file must have at least two numeric columns." :=
  one_column_error ["3", "4"] "" 0 [[3], [4]] (by with_unfolding_all decide)
    (by with_unfolding_all decide) (by with_unfolding_all decide) (by decide)

/-- Helper: every pair of the zip of a list with itself satisfies the
allclose tolerance bound. -/
theorem zip_self_all (x : List ℚ) :
    (List.zip x x).all
      (fun p => decide (|p.1 - p.2| ≤ 1 / 100000000 + |p.2| / 100000)) = true := by
  induction x with
  | nil => rfl
  | cons a t ih =>
    rw [List.zip_cons_cons, List.all_cons, ih, Bool.and_true, decide_eq_true_eq,
      sub_self, abs_zero]
    positivity

/-- Helper: np.allclose accepts a vector compared with itself. -/
theorem np_allclose_refl (x : List ℚ) : np_allclose x x = true := by
  unfold np_allclose
  rw [zip_self_all, Bool.and_true, beq_self_eq_true]

/-- Claim C2 (amended): identical grids are subtracted directly; more
generally whenever np.allclose accepts the two grids (numpy default
tolerances) the plotted values are y1 - y2 elementwise, and only when
np.allclose rejects them are they y1 minus the linear interpolation of
y2 onto x1. -/
theorem diff_allclose_spec (x1 y1 x2 y2 : List ℚ) :
    (x1 = x2 → y_diff x1 y1 x2 y2 = List.zipWith (fun a b => a - b) y1 y2)
  ∧ (np_allclose x1 x2 = true →
      y_diff x1 y1 x2 y2 = List.zipWith (fun a b => a - b) y1 y2)
  ∧ (np_allclose x1 x2 = false →
      y_diff x1 y1 x2 y2 =
        List.zipWith (fun a b => a - b) y1 (np_interp x1 x2 y2)) := by
  refine ⟨?_, ?_, ?_⟩
  · intro he; subst he; simp [y_diff, np_allclose_refl]
  · intro hc; simp [y_diff, hc]
  · intro hc; simp [y_diff, hc]

/-- Witness for claim C2's amended statement: grids [0,1] and [0,2] are
rejected by np.allclose, so the second series is interpolated. -/
theorem diff_allclose_spec_witness :
    y_diff [0, 1] [5, 5] [0, 2] [1, 1] = [4, 4] := by
  have h := (diff_allclose_spec [0, 1] [5, 5] [0, 2] [1, 1]).2.2
    (by with_unfolding_all decide)
  exact h.trans (by with_unfolding_all decide)

/-- Claim C10: in waterfall mode a series whose file name contains
".dofr" is plotted with its y values multiplied by 1/8, and the offset
range it contributes to later series is computed from those scaled
values. -/
theorem waterfall_dofr_scaling (sf off : ℚ) (name : String) (x y : List ℚ)
    (rest : List WSeries) (h : containsSub name ".dofr" = true) :
    plot_waterfall_go sf off ((name, x, y) :: rest)
      = (x, (y.map (fun v => v * 1 / 8)).map (fun v => v + off)) ::
        plot_waterfall_go sf
          (off + (listMax (y.map (fun v => v * 1 / 8)) -
            listMin (y.map (fun v => v * 1 / 8))) * sf) rest := by
  simp [plot_waterfall_go, scaledY, seriesRange, h]

/-- Witness for claim C10 on a concrete .dofr dataset. -/
theorem waterfall_dofr_scaling_witness :
    plot_waterfall_go (1 / 10) 0 [("w.dofr", [0, 1], [8, 16])] = [([0, 1], [1, 2])] := by
  have h := waterfall_dofr_scaling (1 / 10) 0 "w.dofr" [0, 1] [8, 16] []
    (by with_unfolding_all decide)
  exact h.trans (by with_unfolding_all decide)

/-- Helper for claim C3: the waterfall loop plots dataset k at the
starting offset plus the cumulative scaled range of the prior datasets. -/
theorem wfGo_getD (sf : ℚ) (ds : List WSeries) :
    ∀ (off : ℚ) (k : Nat), k < ds.length →
      (plot_waterfall_go sf off ds).getD k ([], [])
        = ((ds.getD k ("", [], [])).2.1,
           (scaledY (ds.getD k ("", [], []))).map
             (fun v => v + (off + cumOffset sf (List.take k ds)))) := by
  induction ds with
  | nil => intro off k hk; exact absurd hk (Nat.not_lt_zero k)
  | cons d rest ih =>
    intro off k hk
    cases k with
    | zero =>
      simp [plot_waterfall_go, cumOffset]
    | succ k =>
      have hk2 : k < rest.length := Nat.lt_of_succ_lt_succ hk
      simp only [plot_waterfall_go, List.getD_cons_succ, List.take_succ_cons]
      rw [ih _ k hk2]
      simp [cumOffset, add_assoc]

/-- Claim C3 (amended): in waterfall mode, series k is plotted at the
vertical offset given by the cumulative sum over the prior series of
(max - min of their plotted values) * scale_factor, where the plotted
values of a series are its loaded y values scaled by 1/8 when its file
name contains ".dofr" and unchanged otherwise; in particular the first
series has zero offset. -/
theorem waterfall_cumulative_offsets (sf : ℚ) (ds : List WSeries) (k : Nat)
    (hk : k < ds.length) :
    (plot_waterfall_go sf 0 ds).getD k ([], [])
      = ((ds.getD k ("", [], [])).2.1,
         (scaledY (ds.getD k ("", [], []))).map
           (fun v => v + cumOffset sf (List.take k ds))) := by
  have h := wfGo_getD sf ds 0 k hk
  simpa using h

/-- Witness for claim C3's amended statement on two plain files. -/
theorem waterfall_cumulative_offsets_witness :
    (plot_waterfall_go (1 / 10) 0
        [("a.txt", [0, 1], [0, 2]), ("b.txt", [0, 1], [5, 9])]).getD 1 ([], [])
      = ([0, 1], [26 / 5, 46 / 5]) := by
  have h := waterfall_cumulative_offsets (1 / 10)
    [("a.txt", [0, 1], [0, 2]), ("b.txt", [0, 1], [5, 9])] 1 (by decide)
  exact h.trans (by with_unfolding_all decide)

/-- Claim C5 (amended): the process exits with code 1 when no arguments
are given, when --diff is not given exactly two names, when --waterfall
is given no names, and, in diff mode, when a named file is missing or
when either file fails to load (unparseable data or too few columns);
in single-file and multi-file overlay modes such per-file failures are
only warned about and the exit code is 0. -/
theorem mainExit_error_conditions (fs : FS) (f1 f2 : String) :
    mainExit fs [] = 1
  ∧ mainExit fs ["--diff", f1] = 1
  ∧ mainExit fs ["--waterfall"] = 1
  ∧ (fsLookup fs f1 = none → mainExit fs ["--diff", f1, f2] = 1)
  ∧ (fsLookup fs f2 = none → mainExit fs ["--diff", f1, f2] = 1)
  ∧ (∀ l1 e, fsLookup fs f1 = some l1 → load_data l1 = .error e →
      mainExit fs ["--diff", f1, f2] = 1)
  ∧ (∀ l1 l2 e, fsLookup fs f1 = some l1 → fsLookup fs f2 = some l2 →
      load_data l2 = .error e → mainExit fs ["--diff", f1, f2] = 1) := by
  refine ⟨rfl, by simp [mainExit], by simp [mainExit], ?_, ?_, ?_, ?_⟩
  · intro h
    simp [mainExit, plot_difference_exit, h]
  · intro h
    cases hf : fsLookup fs f1 <;> simp [mainExit, plot_difference_exit, hf, h]
  · intro l1 e h1 he
    rcases hf2 : fsLookup fs f2 with _ | l2
    · simp [mainExit, plot_difference_exit, h1, hf2]
    · simp [mainExit, plot_difference_exit, h1, hf2, he]
  · intro l1 l2 e h1 h2 he
    rcases hd : load_data l1 with e1 | d1
    · simp [mainExit, plot_difference_exit, h1, h2, hd]
    · obtain ⟨x1, y1, xl1, yl1⟩ := d1
      simp [mainExit, plot_difference_exit, h1, h2, hd, he]

/-- Witness for claim C5's amended statement: a missing file and a file
with no numeric data, each in diff mode, and the empty argument list. -/
theorem mainExit_error_conditions_witness :
    mainExit [("good.txt", ["1 2", "3 4"])] [] = 1
  ∧ mainExit [("good.txt", ["1 2", "3 4"])] ["--diff", "nofile.txt", "good.txt"] = 1
  ∧ mainExit [("good.txt", ["1 2", "3 4"]), ("bad.txt", ["words only"])]
      ["--diff", "good.txt", "bad.txt"] = 1 := by
  refine ⟨(mainExit_error_conditions [("good.txt", ["1 2", "3 4"])] "x" "y").1, ?_, ?_⟩
  · exact (mainExit_error_conditions [("good.txt", ["1 2", "3 4"])]
      "nofile.txt" "good.txt").2.2.2.1 (by with_unfolding_all decide)
  · exact (mainExit_error_conditions [("good.txt", ["1 2", "3 4"]), ("bad.txt", ["words only"])]
      "good.txt" "bad.txt").2.2.2.2.2.2 ["1 2", "3 4"] ["words only"]
      "No numeric data found in file." (by with_unfolding_all decide)
      (by with_unfolding_all decide) (by with_unfolding_all decide)

/-- Helper: the waterfall collection loop is the same computation as the
plot_multiple loop. -/
theorem datalist_eq (fs : FS) : ∀ files,
    plot_waterfall_datalist fs files = plot_multiple_run fs files := by
  intro files
  induction files with
  | nil => rfl
  | cons f rest ih =>
    simp only [plot_waterfall_datalist, plot_multiple_run, ih]

/-- Helper: the series plot_multiple plots are exactly the valid files,
in argument order. -/
theorem run_fst (fs : FS) : ∀ files,
    (plot_multiple_run fs files).1 = specValidSeries fs files := by
  intro files
  induction files with
  | nil => rfl
  | cons f rest ih =>
    rcases hf : fsLookup fs f with _ | ls
    · simp only [plot_multiple_run, hf]
      rw [ih]
      simp [specValidSeries, List.filterMap_cons, hf]
    · rcases hd : load_data ls with e | d
      · simp only [plot_multiple_run, hf, hd]
        rw [ih]
        simp [specValidSeries, List.filterMap_cons, hf, hd]
      · obtain ⟨x, y, xl, yl⟩ := d
        simp only [plot_multiple_run, hf, hd]
        rw [ih]
        simp [specValidSeries, List.filterMap_cons, hf, hd]

/-- Helper: a missing file always leaves its not-found warning in the
messages printed by the plot_multiple loop. -/
theorem run_warn (fs : FS) : ∀ files f, f ∈ files → fsLookup fs f = none →
    ("Error: file not found -> " ++ f) ∈ (plot_multiple_run fs files).2 := by
  intro files
  induction files with
  | nil => intro f hf; exact absurd hf (List.not_mem_nil f)
  | cons g rest ih =>
    intro f hf hnone
    rcases List.mem_cons.mp hf with he | hm
    · subst he
      simp [plot_multiple_run, hnone]
    · rcases hg : fsLookup fs g with _ | ls
      · simp only [plot_multiple_run, hg]
        exact List.mem_cons_of_mem _ (ih f hm hnone)
      · rcases hd : load_data ls with e | d
        · simp only [plot_multiple_run, hg, hd]
          exact List.mem_cons_of_mem _ (ih f hm hnone)
        · obtain ⟨x, y, xl, yl⟩ := d
          simp only [plot_multiple_run, hg, hd]
          exact ih f hm hnone

/-- Helper: a file that exists but that load_data rejects always leaves
its reading-error warning in the messages printed by the plot_multiple
loop. -/
theorem run_warn_load (fs : FS) : ∀ files f ls e, f ∈ files →
    fsLookup fs f = some ls → load_data ls = .error e →
    ("Error reading " ++ f ++ ": " ++ e) ∈ (plot_multiple_run fs files).2 := by
  intro files
  induction files with
  | nil => intro f ls e hf; exact absurd hf (List.not_mem_nil f)
  | cons g rest ih =>
    intro f ls e hf hsome herr
    rcases List.mem_cons.mp hf with he | hm
    · subst he
      simp [plot_multiple_run, hsome, herr]
    · rcases hg : fsLookup fs g with _ | ls2
      · simp only [plot_multiple_run, hg]
        exact List.mem_cons_of_mem _ (ih f ls e hm hsome herr)
      · rcases hd : load_data ls2 with e2 | d
        · simp only [plot_multiple_run, hg, hd]
          exact List.mem_cons_of_mem _ (ih f ls e hm hsome herr)
        · obtain ⟨x, y, xl, yl⟩ := d
          simp only [plot_multiple_run, hg, hd]
          exact ih f ls e hm hsome herr

/-- Claim C8: in overlay and waterfall modes the plotted datasets are
exactly the files that exist and load, in argument order; each missing
file contributes a printed not-found warning and each existing but
unloadable file a printed reading-error warning, in both modes, so the
failures are not fatal. -/
theorem skip_invalid_files (fs : FS) (files : List String) :
    (plot_multiple_run fs files).1 = specValidSeries fs files
  ∧ (plot_waterfall_datalist fs files).1 = specValidSeries fs files
  ∧ (∀ f, f ∈ files → fsLookup fs f = none →
      ("Error: file not found -> " ++ f) ∈ (plot_multiple_run fs files).2
      ∧ ("Error: file not found -> " ++ f) ∈ (plot_waterfall_datalist fs files).2)
  ∧ (∀ f ls e, f ∈ files → fsLookup fs f = some ls → load_data ls = .error e →
      ("Error reading " ++ f ++ ": " ++ e) ∈ (plot_multiple_run fs files).2
      ∧ ("Error reading " ++ f ++ ": " ++ e) ∈ (plot_waterfall_datalist fs files).2) := by
  refine ⟨run_fst fs files, ?_, ?_, ?_⟩
  · rw [datalist_eq fs files]; exact run_fst fs files
  · intro f hf hnone
    refine ⟨run_warn fs files f hf hnone, ?_⟩
    rw [datalist_eq fs files]
    exact run_warn fs files f hf hnone
  · intro f ls e hf hsome herr
    refine ⟨run_warn_load fs files f ls e hf hsome herr, ?_⟩
    rw [datalist_eq fs files]
    exact run_warn_load fs files f ls e hf hsome herr

/-- Witness for claim C8: one valid file, one existing but unreadable
file, one missing file; the valid file is plotted and both kinds of
warning appear in both modes. -/
theorem skip_invalid_files_witness :
    (plot_multiple_run [("ok.txt", ["1 2", "3 4"]), ("bad.txt", ["words only"])]
        ["ok.txt", "bad.txt", "miss.txt"]).1
      = [("ok.txt", [1, 3], [2, 4])]
  ∧ "Error: file not found -> miss.txt"
      ∈ (plot_waterfall_datalist [("ok.txt", ["1 2", "3 4"]), ("bad.txt", ["words only"])]
          ["ok.txt", "bad.txt", "miss.txt"]).2
  ∧ "Error reading bad.txt: No numeric data found in file."
      ∈ (plot_multiple_run [("ok.txt", ["1 2", "3 4"]), ("bad.txt", ["words only"])]
          ["ok.txt", "bad.txt", "miss.txt"]).2
  ∧ "Error reading bad.txt: No numeric data found in file."
      ∈ (plot_waterfall_datalist [("ok.txt", ["1 2", "3 4"]), ("bad.txt", ["words only"])]
          ["ok.txt", "bad.txt", "miss.txt"]).2 := by
  have h := skip_invalid_files [("ok.txt", ["1 2", "3 4"]), ("bad.txt", ["words only"])]
    ["ok.txt", "bad.txt", "miss.txt"]
  have hload := h.2.2.2 "bad.txt" ["words only"] "No numeric data found in file."
    (by with_unfolding_all decide) (by with_unfolding_all decide)
    (by with_unfolding_all decide)
  refine ⟨h.1.trans (by with_unfolding_all decide), ?_, hload.1, hload.2⟩
  exact (h.2.2.1 "miss.txt" (by with_unfolding_all decide) (by with_unfolding_all decide)).2
